import Mathlib

set_option maxRecDepth 100000
set_option maxHeartbeats 1000000

/-!
Verification of the retail-lakehouse dashboard (`src/app/app.py`) against its
specification. The Python module is shallowly embedded: the warehouse boundary
(`WorkspaceClient.statement_execution.execute_statement`) is modelled as a
function from the submitted SQL string to a `WireResp` (the three observable
shapes of the call: a result with a manifest, a response missing result or
manifest, and a raised exception); pandas DataFrames become the `Frame`
structure (ordered column names plus row-major cell lists); each tab callback
becomes a Lean function over that model.  Places where the Python code can
raise past a callback (pandas `KeyError` / `IndexError`, failing `float`/`int`
conversions) are made explicit with `Except String`.
-/

/-- A cell value, the closed union pandas cells take in this app:
string, integer, non-integer numeric, or null/NaN.  A non-integer numeric is
held as a scaled decimal `m / 10^e` — exact for every value appearing in
this app's queries (all are `ROUND`ed to a fixed number of places). -/
inductive Value where
  | str (s : String)
  | int (n : Int)
  | num (m : Int) (e : Nat)
  | null
deriving DecidableEq, Repr

instance {ε α : Type} [DecidableEq ε] [DecidableEq α] : DecidableEq (Except ε α) :=
  fun a b =>
    match a, b with
    | Except.ok x, Except.ok y =>
      if h : x = y then Decidable.isTrue (by rw [h])
      else Decidable.isFalse (by intro hc; cases hc; exact h rfl)
    | Except.error x, Except.error y =>
      if h : x = y then Decidable.isTrue (by rw [h])
      else Decidable.isFalse (by intro hc; cases hc; exact h rfl)
    | Except.ok _, Except.error _ => Decidable.isFalse (by intro hc; cases hc)
    | Except.error _, Except.ok _ => Decidable.isFalse (by intro hc; cases hc)

/-- A pandas DataFrame as this app observes it: ordered column names plus
row-major cells.  `pd.DataFrame(rows, columns=cols)` in `run_query` yields
exactly this shape. -/
structure Frame where
  cols : List String
  rows : List (List Value)
deriving DecidableEq, Repr

/-- `df.empty`: true when either axis has length zero. -/
def Frame.isEmpty (f : Frame) : Bool :=
  f.rows.isEmpty || f.cols.isEmpty

/-- The callers' outcome tag, `"error" in df.columns`. -/
def hasErrorCol (f : Frame) : Bool :=
  f.cols.contains ("error")

/-- Leading and trailing whitespace removed, as Python `str.strip()`. -/
def trimChars (l : List Char) : List Char :=
  ((l.dropWhile Char.isWhitespace).reverse.dropWhile Char.isWhitespace).reverse

/-- The value of a nonempty all-digit character list; `none` otherwise. -/
def digitsNat (ds : List Char) : Option Nat :=
  match ds with
  | [] => none
  | _ => ds.foldl
      (fun acc c => acc.bind
        (fun n => if c.isDigit then some (n * 10 + (c.toNat - 48)) else none))
      (some 0)

/-- Python `int(s)` on a string: optional surrounding whitespace, optional
sign, then decimal digits; anything else raises `ValueError` (here `none`).
(Underscore digit grouping, accepted by Python 3, is not modelled; no input
in this development uses it.) -/
def pyInt (s : String) : Option Int :=
  match trimChars s.data with
  | [] => none
  | c :: ds =>
    if c = Char.ofNat 45 then (digitsNat ds).map (fun n => -(n : Int))
    else if c = Char.ofNat 43 then (digitsNat ds).map (fun n => (n : Int))
    else (digitsNat (c :: ds)).map (fun n => (n : Int))

/-- Numeric parse of a character list: optional sign, digits, optional
fractional part — the grammar `pd.to_numeric` accepts for the values this app
receives (scientific notation is not modelled; no input here uses it). -/
def parseNumChars (cs : List Char) : Option Value :=
  match cs with
  | [] => none
  | c :: rest =>
    let sg : Int := if c = Char.ofNat 45 then -1 else 1
    let body := if c = Char.ofNat 45 ∨ c = Char.ofNat 43 then rest else c :: rest
    let intPart := body.takeWhile (fun d => d ≠ Char.ofNat 46)
    match body.dropWhile (fun d => d ≠ Char.ofNat 46) with
    | [] =>
      (digitsNat intPart).map (fun n => Value.int (sg * (n : Int)))
    | _ :: frac =>
      if intPart.isEmpty ∧ frac.isEmpty then none
      else
        match digitsNat (Char.ofNat 48 :: intPart), digitsNat (Char.ofNat 48 :: frac) with
        | some i, some f =>
          some (Value.num (sg * ((i : Int) * (10 : Int) ^ frac.length + (f : Int))) frac.length)
        | _, _ => none

/-- `pd.to_numeric` on one cell: numeric strings convert, numbers and nulls
pass through unchanged, non-numeric strings fail. -/
def parseNumVal : Value → Option Value
  | Value.str s => parseNumChars (trimChars s.data)
  | Value.int n => some (Value.int n)
  | Value.num m e => some (Value.num m e)
  | Value.null => some Value.null

/-- A column converts only when every one of its cells does —
`pd.to_numeric(df[c], errors="ignore")` converts the column as a whole or
returns it unchanged. -/
def colConvertible (rows : List (List Value)) (j : Nat) : Bool :=
  rows.all (fun r =>
    match r.get? j with
    | some v => (parseNumVal v).isSome
    | none => false)

/-- The per-column numeric coercion loop of `run_query`
(`for c in df.columns: df[c] = pd.to_numeric(df[c], errors="ignore")`),
expressed over row-major data by column index; equivalent to the name-based
pandas loop when column names are distinct. -/
def toNumericRows (rows : List (List Value)) : List (List Value) :=
  rows.map (fun r => r.enum.map (fun p =>
    if colConvertible rows p.1 then (parseNumVal p.2).getD p.2 else p.2))

/-- The three observable shapes of the Statement Execution call inside
`run_query`: a response with both `result` and `manifest` (schema column
names plus optional `data_array`), a response missing one of them, or a
raised exception. -/
inductive WireResp where
  | ok (schema : List String) (data : Option (List (List Value)))
  | noResult
  | exn (msg : String)
deriving DecidableEq, Repr

/-- `run_query(sql)`: execute via the warehouse (modelled as `wh`), build the
DataFrame from the manifest's column names and the (possibly absent) data
array, coerce numeric columns; on a response missing result or manifest
return the empty frame; on an exception return the one-row error frame
`pd.DataFrame({"error": [str(exc)]})`. -/
def run_query (wh : String → WireResp) (sql : String) : Frame :=
  match wh sql with
  | WireResp.ok schema data => ⟨schema, toNumericRows (data.getD [])⟩
  | WireResp.noResult => ⟨[], []⟩
  | WireResp.exn msg => ⟨[("error")], [[Value.str msg]]⟩

/-- C1: for every warehouse behaviour and SQL string, when the underlying
call raises an exception with message `msg`, `run_query` returns a value —
the one-row failure frame whose `error` column carries `msg` — rather than
propagating the exception past the executor boundary. -/
theorem run_query_catches_exceptions (wh : String → WireResp) (sql msg : String)
    (h : wh sql = WireResp.exn msg) :
    run_query wh sql = ⟨[("error")], [[Value.str msg]]⟩ := by
  simp [run_query, h]

/-- Witness for C1 at a concrete failing warehouse. -/
theorem run_query_catches_exceptions_witness :
    run_query (fun _ => WireResp.exn ("connection refused")) ("SELECT 1")
      = ⟨[("error")], [[Value.str ("connection refused")]]⟩ :=
  run_query_catches_exceptions (fun _ => WireResp.exn ("connection refused"))
    ("SELECT 1") ("connection refused") rfl

/-- `os.getenv("CATALOG", "main")` at its default. -/
def CATALOG : String := ("main")

/-- `f"{CATALOG}.retail_gold"`. -/
def GOLD : String := CATALOG ++ (".retail_gold")

/-- `f"{CATALOG}.retail_silver"`. -/
def SILVER : String := CATALOG ++ (".retail_silver")

/-- Python `str(value)` on a cell as the app's f-strings use it.  Only the
string and integer branches are exercised by the concrete scenarios; the
rendering of a non-integer numeric differs from CPython float repr and is
never relied on. -/
def Value.pyStr : Value → String
  | Value.str s => s
  | Value.int n => toString n
  | Value.num m e =>
    let fs := toString (m.natAbs % 10 ^ e)
    (if m < 0 then ("-") else ("")) ++ toString (m.natAbs / 10 ^ e) ++ (".") ++
      String.mk (List.replicate (e - fs.length) (Char.ofNat 48)) ++ fs
  | Value.null => ("None")

/-- A Python float as the app observes it: a scaled-decimal numeric value
(`m / 10^e`) or NaN. -/
inductive PyFloat where
  | num (m : Int) (e : Nat)
  | nan
deriving DecidableEq, Repr

/-- Python `float(cell)`: numbers pass through, NaN (a null cell after
`to_numeric`) stays NaN, numeric strings parse, anything else raises
`ValueError` (here `Except.error`). -/
def pyFloatOf : Value → Except String PyFloat
  | Value.int n => Except.ok (PyFloat.num n 0)
  | Value.num m e => Except.ok (PyFloat.num m e)
  | Value.null => Except.ok PyFloat.nan
  | Value.str s =>
    match parseNumChars (trimChars s.data) with
    | some (Value.int n) => Except.ok (PyFloat.num n 0)
    | some (Value.num m e) => Except.ok (PyFloat.num m e)
    | _ => Except.error ("ValueError: could not convert string to float")

/-- Python `int(cell)` as `exec_data` uses it: integers pass through,
non-integer numerics truncate toward zero, integer strings parse, NaN and
other strings raise. -/
def pyIntOf : Value → Except String Int
  | Value.int n => Except.ok n
  | Value.num m e =>
    Except.ok (if m < 0 then -((m.natAbs / 10 ^ e : Nat) : Int) else ((m.natAbs / 10 ^ e : Nat) : Int))
  | Value.str s =>
    match pyInt s with
    | some n => Except.ok n
    | none => Except.error ("ValueError: invalid literal for int")
  | Value.null => Except.error ("ValueError: cannot convert float NaN to integer")

/-- Thousands grouping over a reversed digit list: a comma after every third
digit from the right. -/
def commaRev : List Char → Nat → List Char
  | [], _ => []
  | c :: cs, k =>
    if k = 3 then Char.ofNat 44 :: c :: commaRev cs 1
    else c :: commaRev cs (k + 1)

/-- Decimal rendering of a natural number with thousands separators, as
Python `"{:,}"`. -/
def natComma (n : Nat) : String :=
  String.mk (commaRev (toString n).data.reverse 0).reverse

/-- Python `"{:,}"` on an integer. -/
def intComma (n : Int) : String :=
  (if n < 0 then ("-") else ("")) ++ natComma n.natAbs

/-- Two-digit rendering of `n < 100`. -/
def twoDigits (n : Nat) : String :=
  (if n < 10 then ("0") else ("")) ++ toString n

/-- Python `"{:,.2f}"`.  The embedding takes the floor of the value times
100; it agrees with CPython's (half-even, binary) rounding whenever that
product is an integer, which holds for every value in this development.
NaN renders as `"nan"`. -/
def fmtComma2 : PyFloat → String
  | PyFloat.nan => ("nan")
  | PyFloat.num m e =>
    let c : Int := Int.fdiv (m * 100) ((10 : Int) ^ e)
    (if c < 0 then ("-") else ("")) ++
      natComma (c.natAbs / 100) ++ (".") ++ twoDigits (c.natAbs % 100)

/-- Python `"{:,.0f}"`, under the same integrality caveat as `fmtComma2`. -/
def fmtComma0 : PyFloat → String
  | PyFloat.nan => ("nan")
  | PyFloat.num m e =>
    let c : Int := Int.fdiv m ((10 : Int) ^ e)
    (if c < 0 then ("-") else ("")) ++ natComma c.natAbs

/-- `df[c].iloc[0]` when column `c` exists: the first row's cell there. -/
def Frame.at0 (f : Frame) (c : String) : Option Value :=
  match f.cols.indexOf? c with
  | some j => (f.rows.headD []).get? j
  | none => none

/-- A row's cell under column name `c` (`row[c]` on a pandas Series);
`KeyError` when the column is absent. -/
def Frame.cell (f : Frame) (r : List Value) (c : String) : Except String Value :=
  match f.cols.indexOf? c with
  | some j =>
    match r.get? j with
    | some v => Except.ok v
    | none => Except.error (("KeyError: ") ++ c)
  | none => Except.error (("KeyError: ") ++ c)

/-- `row.get(c, default)` on a pandas Series. -/
def Frame.cellD (f : Frame) (r : List Value) (c : String) (d : Value) : Value :=
  match f.cell r c with
  | Except.ok v => v
  | Except.error _ => d

/-- The cells of column `j`, top to bottom. -/
def Frame.colVals (f : Frame) (j : Nat) : List Value :=
  f.rows.filterMap (fun r => r.get? j)

/-- Addition of scaled decimals: `m1/10^e1 + m2/10^e2`. -/
def decAdd (a b : Int × Nat) : Int × Nat :=
  (a.1 * (10 : Int) ^ b.2 + b.1 * (10 : Int) ^ a.2, a.2 + b.2)

/-- `series.sum()` followed by numeric formatting: nulls are skipped
(pandas `skipna`), numbers add, and a string cell makes the subsequent
`"{:,.0f}"` format raise (pandas would concatenate the strings and the
format call rejects the result). -/
def seriesSum : List Value → Except String (Int × Nat)
  | [] => Except.ok (0, 0)
  | Value.null :: vs => seriesSum vs
  | Value.int n :: vs => (seriesSum vs).map (decAdd (n, 0))
  | Value.num m e :: vs => (seriesSum vs).map (decAdd (m, e))
  | Value.str _ :: vs =>
    (seriesSum vs).bind (fun _ => Except.error ("ValueError: unknown format code"))

/-- The customer-360 SQL f-string, with `cid` interpolated into the
`WHERE c.customer_key =` clause. -/
def customerSql (cid : Int) : String :=
  ("\n        SELECT c.customer_key, c.customer_name, c.market_segment,\n               c.nation_name, c.region_name, c.balance_tier,\n               r.rfm_segment, r.rfm_score,\n               ROUND(r.monetary, 2) AS lifetime_value,\n               r.frequency AS total_orders, r.recency_days,\n               ROUND(r.avg_order_value, 2) AS avg_order_value\n        FROM ")
    ++ SILVER ++ (".dim_customer c\n        LEFT JOIN ") ++ GOLD
    ++ (".gold_customer_rfm r ON c.customer_key = r.customer_key\n        WHERE c.customer_key = ")
    ++ toString cid ++ ("\n    ")

/-- The SQL strings `customer_lookup` submits to the executor for a given
input: none when validation stops the call, the single customer query
otherwise.  (The Python function has exactly one `run_query` call site,
reached only after both input checks.) -/
def customerQueries (customer_id : Option String) : List String :=
  match customer_id with
  | none => []
  | some s =>
    if (trimChars s.data).isEmpty then []
    else
      match pyInt s with
      | none => []
      | some cid => [customerSql cid]

/-- `customer_lookup(customer_id)`: blank-input prompt, integer validation,
one query, then either the error branch, the empty branch, or the markdown
summary assembled from the first row.  `Except.error` marks the places the
Python code would raise past the callback (a missing column or a failing
`float` conversion). -/
def customer_lookup (wh : String → WireResp) (customer_id : Option String) :
    Except String (String × Option Frame) :=
  match customer_id with
  | none => Except.ok (("Enter a customer ID to look up."), none)
  | some s =>
    if (trimChars s.data).isEmpty then
      Except.ok (("Enter a customer ID to look up."), none)
    else
      match pyInt s with
      | none => Except.ok (("Enter a valid integer customer ID."), none)
      | some cid =>
        let df := run_query wh (customerSql cid)
        if hasErrorCol df then
          match df.at0 ("error") with
          | some v => Except.ok ((("Query error: ") ++ v.pyStr), none)
          | none => Except.error ("IndexError: single positional indexer is out-of-bounds")
        else if df.isEmpty then
          Except.ok ((("No customer found with ID ") ++ toString cid ++ (".")), none)
        else do
          let r := df.rows.headD []
          let ck ← df.cell r ("customer_key")
          let nm ← df.cell r ("customer_name")
          let ms ← df.cell r ("market_segment")
          let nn ← df.cell r ("nation_name")
          let rg ← df.cell r ("region_name")
          let bt := df.cellD r ("balance_tier") (Value.str ("N/A"))
          let rs ← df.cell r ("rfm_segment")
          let sc ← df.cell r ("rfm_score")
          let lvCell ← df.cell r ("lifetime_value")
          let lv ← pyFloatOf lvCell
          let tot ← df.cell r ("total_orders")
          let aovCell ← df.cell r ("avg_order_value")
          let aov ← pyFloatOf aovCell
          let rd ← df.cell r ("recency_days")
          let summary :=
            ("## Customer #") ++ ck.pyStr ++ (" -- ") ++ nm.pyStr ++
            ("\n\n| Attribute | Value |\n|---|---|\n| Segment | ") ++ ms.pyStr ++
            (" |\n| Region | ") ++ rg.pyStr ++ (" (") ++ nn.pyStr ++
            (") |\n| Balance Tier | ") ++ bt.pyStr ++
            (" |\n| RFM Segment | ") ++ rs.pyStr ++
            (" |\n| RFM Score | ") ++ sc.pyStr ++
            (" |\n| Lifetime Value | $") ++ fmtComma2 lv ++
            (" |\n| Total Orders | ") ++ tot.pyStr ++
            (" |\n| Avg Order Value | $") ++ fmtComma2 aov ++
            (" |\n| Recency (days) | ") ++ rd.pyStr ++ (" |\n")
          Except.ok (summary, some df)

/-- The predicate clause `f"region = '{region}'"`. -/
def regionClause (region : String) : String :=
  ("region = \x27") ++ region ++ ("\x27")

/-- The predicate clause `f"year_month >= '{start_month}'"`. -/
def startClause (start_month : String) : String :=
  ("year_month >= \x27") ++ start_month ++ ("\x27")

/-- The predicate clause `f"year_month <= '{end_month}'"`. -/
def endClause (end_month : String) : String :=
  ("year_month <= \x27") ++ end_month ++ ("\x27")

/-- The `clauses` list built by `revenue_data`: one conditional append per
filter, in source order. -/
def revenueClauses (region start_month end_month : String) : List String :=
  (if region ≠ ("") ∧ region ≠ ("ALL") then [regionClause region] else []) ++
  (if start_month ≠ ("") then [startClause start_month] else []) ++
  (if end_month ≠ ("") then [endClause end_month] else [])

/-- `where = "WHERE " + " AND ".join(clauses) if clauses else ""`. -/
def revenueWhere (region start_month end_month : String) : String :=
  let cl := revenueClauses region start_month end_month
  if cl.isEmpty then ("")
  else ("WHERE ") ++ String.intercalate (" AND ") cl

/-- The monthly-revenue SQL f-string with the composed `where` interpolated. -/
def revenueSql (region start_month end_month : String) : String :=
  ("\n        SELECT year_month, region,\n               ROUND(SUM(net_revenue), 0) AS revenue,\n               SUM(num_orders) AS orders,\n               ROUND(AVG(profit_margin_pct), 1) AS margin_pct\n        FROM ")
    ++ GOLD ++ (".gold_monthly_sales\n        ")
    ++ revenueWhere region start_month end_month
    ++ ("\n        GROUP BY year_month, region ORDER BY year_month, region\n    ")

/-- The SQL strings `revenue_data` submits: its single `run_query` call is
unconditional, so exactly one query is always issued. -/
def revenueQueries (region start_month end_month : String) : List String :=
  [revenueSql region start_month end_month]

/-- `revenue_data(region, start_month, end_month)`: build clauses, run the
query, then either the error branch or the total-revenue header.  The
`df["revenue"]` column access raises `KeyError` when the frame has no such
column — pandas would — and `Except.error` records that. -/
def revenue_data (wh : String → WireResp) (region start_month end_month : String) :
    Except String (String × Frame) :=
  let df := run_query wh (revenueSql region start_month end_month)
  if hasErrorCol df then
    match df.at0 ("error") with
    | some v => Except.ok ((("Query error: ") ++ v.pyStr), df)
    | none => Except.error ("IndexError: single positional indexer is out-of-bounds")
  else
    match df.cols.indexOf? ("revenue") with
    | none => Except.error ("KeyError: \x27revenue\x27")
    | some j => do
      let total ← seriesSum (df.colVals j)
      Except.ok ((("**Total Revenue**: $") ++ fmtComma0 (PyFloat.num total.1 total.2)
        ++ ("  |  **Rows**: ") ++ toString df.rows.length), df)

/-- The front of the product-performance SQL f-string, up to the `ORDER BY`
keyword. -/
def productSqlPre : String :=
  ("\n        SELECT brand, price_band,\n               ROUND(SUM(net_revenue), 0) AS revenue,\n               ROUND(AVG(profit_margin_pct), 1) AS margin_pct,\n               ROUND(AVG(return_rate_pct), 1) AS return_rate,\n               SUM(num_orders) AS orders\n        FROM ")
    ++ GOLD ++ (".gold_product_performance\n        GROUP BY brand, price_band ")

/-- The product-performance SQL f-string: `sort_by` and `int(top_n)` are
interpolated verbatim into the `ORDER BY ... DESC LIMIT ...` tail.  (The
literal text around the two interpolations is split at keyword boundaries;
the concatenated string is identical to the source f-string.) -/
def productSql (sort_by : String) (top_n : Int) : String :=
  productSqlPre ++ ("ORDER BY ") ++ sort_by ++ (" DESC") ++ (" LIMIT ")
    ++ toString top_n ++ ("\n    ")

/-- The SQL strings `product_data` submits: its single `run_query` call is
unconditional, so exactly one query is always issued, for every `sort_by`
and `top_n`. -/
def productQueries (sort_by : String) (top_n : Int) : List String :=
  [productSql sort_by top_n]

/-- `product_data(sort_by, top_n)`: returns the executor's frame directly.
`top_n : Int` stands for `int(top_n)` applied to the slider value. -/
def product_data (wh : String → WireResp) (sort_by : String) (top_n : Int) : Frame :=
  run_query wh (productSql sort_by top_n)

/-- The churn risk-tier summary SQL. -/
def churnSummarySql : String :=
  ("\n        SELECT risk_tier, COUNT(*) AS customers,\n               ROUND(AVG(churn_probability), 3) AS avg_probability,\n               ROUND(AVG(lifetime_value), 0) AS avg_ltv\n        FROM ")
    ++ GOLD ++ (".gold_churn_scores\n        GROUP BY risk_tier\n        ORDER BY CASE risk_tier\n            WHEN \x27Critical\x27 THEN 1 WHEN \x27High\x27 THEN 2\n            WHEN \x27Medium\x27 THEN 3 ELSE 4 END\n    ")

/-- The churn highest-risk-customers SQL. -/
def churnDetailSql : String :=
  ("\n        SELECT customer_key, risk_tier,\n               ROUND(churn_probability, 3) AS churn_prob,\n               ROUND(lifetime_value, 0) AS ltv, market_segment\n        FROM ")
    ++ GOLD ++ (".gold_churn_scores\n        ORDER BY churn_probability DESC LIMIT 50\n    ")

/-- `churn_data()`: two executor calls, both frames returned as-is. -/
def churn_data (wh : String → WireResp) : Frame × Frame :=
  (run_query wh churnSummarySql, run_query wh churnDetailSql)

/-- The executive-summary SQL. -/
def execSql : String :=
  ("\n        SELECT year_quarter, total_orders, active_customers,\n               ROUND(gross_order_value, 0) AS gross_revenue,\n               ROUND(avg_order_value, 0) AS avg_order_value,\n               ROUND(revenue_per_customer, 0) AS rev_per_customer,\n               qoq_revenue_growth_pct AS qoq_growth\n        FROM ")
    ++ GOLD ++ (".gold_executive_summary ORDER BY year_quarter\n    ")

/-- `exec_data()`: run the KPI query, then the error branch, the
latest-quarter header built from `df.iloc[-1]`, or the no-data message. -/
def exec_data (wh : String → WireResp) : Except String (String × Frame) :=
  let df := run_query wh execSql
  if hasErrorCol df then
    Except.ok (("Error loading data."), df)
  else
    if df.isEmpty then
      Except.ok (("No data available."), df)
    else do
      let q := df.rows.getLastD []
      let yq ← df.cell q ("year_quarter")
      let toCell ← df.cell q ("total_orders")
      let tov ← pyIntOf toCell
      let acCell ← df.cell q ("active_customers")
      let ac ← pyIntOf acCell
      let grCell ← df.cell q ("gross_revenue")
      let gr ← pyFloatOf grCell
      let aoCell ← df.cell q ("avg_order_value")
      let ao ← pyFloatOf aoCell
      let rcCell ← df.cell q ("rev_per_customer")
      let rc ← pyFloatOf rcCell
      let qg ← df.cell q ("qoq_growth")
      let header :=
        ("### Latest Quarter: ") ++ yq.pyStr ++
        ("\n\n| KPI | Value |\n|---|---|\n| Orders | ") ++ intComma tov ++
        (" |\n| Active Customers | ") ++ intComma ac ++
        (" |\n| Gross Revenue | $") ++ fmtComma0 gr ++
        (" |\n| Avg Order Value | $") ++ fmtComma0 ao ++
        (" |\n| Rev / Customer | $") ++ fmtComma0 rc ++
        (" |\n| QoQ Growth | ") ++ qg.pyStr ++ ("% |\n")
      Except.ok (header, df)

/-- `pat` matches the front of the second list. -/
def leadMatch : List Char → List Char → Bool
  | [], _ => true
  | _ :: _, [] => false
  | a :: as, b :: bs => a == b && leadMatch as bs

/-- `pat` occurs as a contiguous run somewhere in the list. -/
def occursIn (pat : List Char) : List Char → Bool
  | [] => leadMatch pat []
  | h :: t => leadMatch pat (h :: t) || occursIn pat t

/-- Substring test on strings (executable, for concrete scenarios). -/
def strHas (hay pat : String) : Bool :=
  occursIn pat.data hay.data

/-- Substring occurrence as a proposition, for statements quantified over
interpolated fragments. -/
def StrContains (hay pat : String) : Prop :=
  ∃ a b, hay = a ++ (pat ++ b)

/-- The message component of a lookup outcome (the raised message when the
call would raise). -/
def lookupMsg (r : Except String (String × Option Frame)) : String :=
  match r with
  | Except.ok p => p.1
  | Except.error e => e

/-- The column names the customer-360 query selects, as a conforming
warehouse reports them. -/
def custCols : List String :=
  [("customer_key"), ("customer_name"), ("market_segment"), ("nation_name"),
   ("region_name"), ("balance_tier"), ("rfm_segment"), ("rfm_score"),
   ("lifetime_value"), ("total_orders"), ("recency_days"), ("avg_order_value")]

/-- The fixture customer row: key 42, name Alice, segment BUILDING,
lifetime value 1234.5 (and plausible values for the remaining columns). -/
def custRow42 : List Value :=
  [Value.int 42, Value.str ("Alice"), Value.str ("BUILDING"),
   Value.str ("GERMANY"), Value.str ("EUROPE"), Value.str ("HIGH"),
   Value.str ("Champion"), Value.int 9, Value.num 12345 1, Value.int 17,
   Value.int 12, Value.num 726 1]

/-- A fixture warehouse holding exactly the customer above. -/
def wh42 : String → WireResp :=
  fun _ => WireResp.ok custCols (some [custRow42])

/-- C2 (amended): `product_data` performs no sort validation.  For every
`sort_by` value — allow-listed or not — exactly one query is issued to the
executor and it embeds `sort_by` verbatim inside its
`ORDER BY ... DESC` clause; the dropdown allow-list lives only in the UI
layer, not in this function. -/
theorem product_sort_interpolated_unvalidated (sort_by : String) (top_n : Int) :
    productQueries sort_by top_n = [productSql sort_by top_n] ∧
    StrContains (productSql sort_by top_n) (("ORDER BY ") ++ sort_by ++ (" DESC")) := by
  refine ⟨rfl, productSqlPre, (" LIMIT ") ++ toString top_n ++ ("\n    "), ?_⟩
  simp only [productSql, String.append_assoc]

/-- C2 (counterexample): with the out-of-allow-list sort value
`"bogus_col"`, the build does not fail — the query is issued, carries the
raw value in its `ORDER BY` clause, and reaches the executor (a warehouse
that recognises the bogus clause observes the call). -/
theorem product_sort_invalid_reaches_executor :
    productQueries ("bogus_col") 20 = [productSql ("bogus_col") 20] ∧
    strHas (productSql ("bogus_col") 20) ("ORDER BY bogus_col DESC") = true ∧
    ([("revenue"), ("margin_pct"), ("return_rate"), ("orders")] : List String).contains ("bogus_col") = false ∧
    product_data
      (fun sql => if strHas sql ("ORDER BY bogus_col DESC")
        then WireResp.exn ("reached executor") else WireResp.noResult)
      ("bogus_col") 20 = ⟨[("error")], [[Value.str ("reached executor")]]⟩ := by
  refine ⟨rfl, by decide, by decide, by decide⟩

/-- C4 (amended): no clamping is applied to the limit.  For every integer
`top_n` — inside or outside `[1,1000]` — the built query's `LIMIT` clause
receives `int(top_n)` verbatim; the `[5,50]` UI slider is the only
constraint on the value. -/
theorem product_limit_interpolated_unclamped (sort_by : String) (top_n : Int) :
    productQueries sort_by top_n = [productSql sort_by top_n] ∧
    StrContains (productSql sort_by top_n) ((" LIMIT ") ++ toString top_n ++ ("\n    ")) := by
  refine ⟨rfl, productSqlPre ++ ("ORDER BY ") ++ sort_by ++ (" DESC"), (""), ?_⟩
  simp only [productSql, String.append_assoc, String.append_empty]

/-- C4 (counterexample): with `top_n = 5000` the query uses `LIMIT 5000` —
a limit outside `[1,1000]` — and no clamped value appears, refuting the
claim that the limit used is clamped into the range. -/
theorem product_limit_out_of_range_used :
    strHas (productSql ("revenue") 5000) (" LIMIT 5000") = true ∧
    strHas (productSql ("revenue") 5000) ("LIMIT 1000") = false ∧
    strHas (productSql ("revenue") 5000) ("LIMIT 1\n") = false ∧
    productQueries ("revenue") 5000 = [productSql ("revenue") 5000] ∧
    ¬((5000 : Int) ≤ 1000) := by
  refine ⟨by decide, by decide, by decide, rfl, by decide⟩

/-- C5 (amended): the DataFrame encoding of outcomes is not a disjoint
tagged union.  The callers' tag — an `error` column — marks every failure
outcome, and classifies a success outcome correctly exactly when the
driver's reported schema does not itself contain a column named `error`;
outside that proviso a success is indistinguishable from a failure. -/
theorem outcome_tag_classification :
    (∀ (wh : String → WireResp) (sql msg : String), wh sql = WireResp.exn msg →
      hasErrorCol (run_query wh sql) = true) ∧
    (∀ (wh : String → WireResp) (sql : String), wh sql = WireResp.noResult →
      hasErrorCol (run_query wh sql) = false) ∧
    (∀ (wh : String → WireResp) (sql : String) (schema : List String)
      (data : Option (List (List Value))), wh sql = WireResp.ok schema data →
      schema.contains ("error") = false →
      hasErrorCol (run_query wh sql) = false) := by
  refine ⟨?_, ?_, ?_⟩
  · intro wh sql msg h
    simp [run_query, h, hasErrorCol]
  · intro wh sql h
    simp [run_query, h, hasErrorCol]
  · intro wh sql schema data h hs
    simp [run_query, h, hasErrorCol]
    simpa using hs

/-- Witness for the amended C5 at concrete warehouses of each shape. -/
theorem outcome_tag_classification_witness :
    hasErrorCol (run_query (fun _ => WireResp.exn ("boom")) ("q")) = true ∧
    hasErrorCol (run_query (fun _ => WireResp.noResult) ("q")) = false ∧
    hasErrorCol (run_query (fun _ => WireResp.ok [("a")] none) ("q")) = false :=
  ⟨outcome_tag_classification.1 (fun _ => WireResp.exn ("boom")) ("q") ("boom") rfl,
   outcome_tag_classification.2.1 (fun _ => WireResp.noResult) ("q") rfl,
   outcome_tag_classification.2.2 (fun _ => WireResp.ok [("a")] none) ("q") [("a")] none rfl
     (by decide)⟩

/-- C5 (counterexample): a success outcome — a warehouse response carrying a
result whose schema is the single column `error` — produces exactly the same
frame as the failure outcome for an exception with the same text, so the
failure representation is not disjoint from every success representation and
the callers' tag misclassifies this success as a failure. -/
theorem outcome_tag_ambiguous_cex :
    run_query (fun _ => WireResp.ok [("error")] (some [[Value.str ("boom")]])) ("q")
      = run_query (fun _ => WireResp.exn ("boom")) ("q") ∧
    hasErrorCol
      (run_query (fun _ => WireResp.ok [("error")] (some [[Value.str ("boom")]])) ("q"))
      = true := by
  refine ⟨by decide, by decide⟩

/-- C3 (code bug): `revenue_data` does not always return a displayable
value.  When the warehouse responds without a result or manifest — as a
failed statement reported through the response status does — `run_query`
returns the column-less empty frame, the `error`-column branch is not
taken, and `df["revenue"]` raises an uncaught `KeyError` to the UI layer.
(Its sibling callbacks all guard the empty frame; `revenue_data` alone
omits the guard, contradicting the spec's no-crash contract.) -/
theorem revenue_data_raises_keyerror_on_empty_result :
    revenue_data (fun _ => WireResp.noResult) ("ALL") ("1995-01") ("1997-12")
      = Except.error ("KeyError: \x27revenue\x27") := by
  decide

/-- C6 (amended): `revenue_data` applies no format validation to its date
filters.  Every non-blank `start_month`/`end_month` value — `YYYY-MM` or
not — contributes its range clause verbatim to the clause list, and the
query is issued unconditionally (there is no validation-failure outcome
before the executor call). -/
theorem revenue_filters_interpolated_unvalidated (region start_month end_month : String) :
    revenueQueries region start_month end_month
      = [revenueSql region start_month end_month] ∧
    (start_month ≠ ("") →
      startClause start_month ∈ revenueClauses region start_month end_month) ∧
    (end_month ≠ ("") →
      endClause end_month ∈ revenueClauses region start_month end_month) := by
  refine ⟨rfl, ?_, ?_⟩
  · intro h
    simp [revenueClauses, h]
  · intro h
    simp [revenueClauses, h]

/-- Witness for the amended C6 at a concretely malformed month value. -/
theorem revenue_filters_interpolated_unvalidated_witness :
    revenueQueries ("ALL") ("bogus") ("also-bogus")
      = [revenueSql ("ALL") ("bogus") ("also-bogus")] ∧
    startClause ("bogus") ∈ revenueClauses ("ALL") ("bogus") ("also-bogus") ∧
    endClause ("also-bogus") ∈ revenueClauses ("ALL") ("bogus") ("also-bogus") :=
  ⟨(revenue_filters_interpolated_unvalidated ("ALL") ("bogus") ("also-bogus")).1,
   (revenue_filters_interpolated_unvalidated ("ALL") ("bogus") ("also-bogus")).2.1
     (by decide),
   (revenue_filters_interpolated_unvalidated ("ALL") ("bogus") ("also-bogus")).2.2
     (by decide)⟩

/-- C6 (counterexample): with the non-`YYYY-MM` value `"bogus"` the build
does not fail with a validation error — the clause
`year_month >= 'bogus'` is composed and the query reaches the warehouse (a
warehouse that recognises the bogus clause observes the call and its reply
is what the caller reports). -/
theorem revenue_invalid_month_reaches_warehouse :
    startClause ("bogus") ∈ revenueClauses ("ALL") ("bogus") ("") ∧
    revenue_data
      (fun sql => if strHas sql ("year_month >= \x27bogus\x27")
        then WireResp.exn ("sent to warehouse") else WireResp.noResult)
      ("ALL") ("bogus") ("")
      = Except.ok ((("Query error: sent to warehouse")),
          ⟨[("error")], [[Value.str ("sent to warehouse")]]⟩) := by
  refine ⟨by decide, by decide⟩

/-- C7: blank filters contribute no predicate clause — an all-blank filter
set builds the unfiltered query with an empty `WHERE` — each present
non-blank filter contributes exactly one clause, and the clauses are joined
conjunctively with `AND`. -/
theorem revenue_blank_filters_unfiltered (region start_month end_month : String) :
    ((region = ("") ∨ region = ("ALL")) → start_month = ("") → end_month = ("") →
      revenueClauses region start_month end_month = [] ∧
      revenueWhere region start_month end_month = ("")) ∧
    (revenueClauses region start_month end_month).length =
      ((if region ≠ ("") ∧ region ≠ ("ALL") then 1 else 0) +
       (if start_month ≠ ("") then 1 else 0) +
       (if end_month ≠ ("") then 1 else 0)) ∧
    (revenueClauses region start_month end_month ≠ [] →
      revenueWhere region start_month end_month =
        ("WHERE ") ++ String.intercalate (" AND ")
          (revenueClauses region start_month end_month)) := by
  refine ⟨?_, ?_, ?_⟩
  · intro hr hs he
    subst hs; subst he
    rcases hr with h | h <;> subst h <;>
      refine ⟨by simp [revenueClauses], by simp [revenueWhere, revenueClauses]⟩
  · simp only [revenueClauses]
    split_ifs <;> simp
  · intro h
    unfold revenueWhere
    rcases hcl : revenueClauses region start_month end_month with _ | ⟨c, cs⟩
    · exact absurd hcl h
    · simp [hcl]

/-- Witness for C7: all-blank filters give the unfiltered query; one
present filter gives one clause and a `WHERE`. -/
theorem revenue_blank_filters_unfiltered_witness :
    (revenueClauses ("ALL") ("") ("") = [] ∧ revenueWhere ("ALL") ("") ("") = ("")) ∧
    revenueWhere ("ASIA") ("") ("") =
      ("WHERE ") ++ String.intercalate (" AND ") (revenueClauses ("ASIA") ("") ("")) :=
  ⟨(revenue_blank_filters_unfiltered ("ALL") ("") ("")).1 (Or.inr rfl) rfl rfl,
   (revenue_blank_filters_unfiltered ("ASIA") ("") ("")).2.2 (by decide)⟩

/-- C8: for every response carrying a result and a manifest (with the
driver's distinct column names), `run_query`'s frame lists exactly the
ordered schema columns — also when the row array is absent or empty — and
keeps one output row per driver row; on the fixture schema
`[a:int, b:string]` with the single row `{a:1, b:"x"}` it returns columns
`["a","b"]` and exactly that row. -/
theorem run_query_schema_columns_roundtrip :
    (∀ (wh : String → WireResp) (sql : String) (schema : List String)
      (data : Option (List (List Value))),
      wh sql = WireResp.ok schema data → schema.Nodup →
      (run_query wh sql).cols = schema ∧
      (run_query wh sql).rows.length = (data.getD []).length) ∧
    run_query (fun _ => WireResp.ok [("a"), ("b")] (some [[Value.int 1, Value.str ("x")]]))
        ("q")
      = ⟨[("a"), ("b")], [[Value.int 1, Value.str ("x")]]⟩ := by
  refine ⟨?_, by decide⟩
  intro wh sql schema data h _
  refine ⟨?_, ?_⟩ <;> simp [run_query, h, toNumericRows]

/-- Witness for C8 at the fixture response, discharging the `Nodup`
side condition. -/
theorem run_query_schema_columns_roundtrip_witness :
    (run_query (fun _ => WireResp.ok [("a"), ("b")] (some [[Value.int 1, Value.str ("x")]]))
        ("q")).cols = [("a"), ("b")] ∧
    (run_query (fun _ => WireResp.ok [("a"), ("b")] (some [[Value.int 1, Value.str ("x")]]))
        ("q")).rows.length
      = ((some [[Value.int 1, Value.str ("x")]]).getD ([] : List (List Value))).length :=
  run_query_schema_columns_roundtrip.1
    (fun _ => WireResp.ok [("a"), ("b")] (some [[Value.int 1, Value.str ("x")]]))
    ("q") [("a"), ("b")] (some [[Value.int 1, Value.str ("x")]]) rfl (by decide)

/-- C9: against the fixture warehouse holding customer 42 (Alice, BUILDING,
lifetime value 1234.5), input `"42"` succeeds and the summary text contains
`"Customer #42"`, `"Alice"` and `"$1,234.50"`; input `"abc"` returns the
integer-validation message with no table and issues no query, for every
warehouse behaviour. -/
theorem customer_lookup_concrete_scenario (wh : String → WireResp) :
    (customer_lookup wh42 (some ("42"))).isOk = true ∧
    strHas (lookupMsg (customer_lookup wh42 (some ("42")))) ("Customer #42") = true ∧
    strHas (lookupMsg (customer_lookup wh42 (some ("42")))) ("Alice") = true ∧
    strHas (lookupMsg (customer_lookup wh42 (some ("42")))) ("$1,234.50") = true ∧
    customer_lookup wh (some ("abc"))
      = Except.ok (("Enter a valid integer customer ID."), none) ∧
    customerQueries (some ("abc")) = [] := by
  refine ⟨by decide, by decide, by decide, by decide, ?_, by decide⟩
  have h1 : (trimChars ("abc").data).isEmpty = false := by decide
  have h2 : pyInt ("abc") = none := by decide
  simp [customer_lookup, h1, h2]

/-- C10: a `None`, empty, or whitespace-only customer id yields the prompt
message with no table and no query issued; a valid integer id whose query
succeeds with zero rows (and an `error`-free schema) yields the
no-customer-found message with no table. -/
theorem customer_lookup_blank_prompt_and_no_match (wh : String → WireResp) :
    customer_lookup wh none = Except.ok (("Enter a customer ID to look up."), none) ∧
    customerQueries none = [] ∧
    (∀ s : String, (trimChars s.data).isEmpty = true →
      customer_lookup wh (some s)
        = Except.ok (("Enter a customer ID to look up."), none) ∧
      customerQueries (some s) = []) ∧
    (∀ (s : String) (cid : Int) (schema : List String),
      pyInt s = some cid → schema.contains ("error") = false →
      wh (customerSql cid) = WireResp.ok schema (some []) →
      customer_lookup wh (some s)
        = Except.ok ((("No customer found with ID ") ++ toString cid ++ (".")), none)) := by
  refine ⟨rfl, rfl, ?_, ?_⟩
  · intro s hs
    constructor <;> simp [customer_lookup, customerQueries, hs]
  · intro s cid schema hp herr hwh
    have hne : (trimChars s.data).isEmpty = false := by
      rcases htc : trimChars s.data with _ | ⟨c, cs⟩
      · simp [pyInt, htc] at hp
      · rfl
    have herr2 : ("error") ∉ schema := by simpa using herr
    simp [customer_lookup, hne, hp, run_query, hwh, hasErrorCol, Frame.isEmpty,
      toNumericRows, herr2]

/-- Witness for C10: the whitespace input `"   "` and the matching-no-row
input `"7"` against an empty-result warehouse. -/
theorem customer_lookup_blank_prompt_and_no_match_witness :
    customer_lookup (fun _ => WireResp.ok custCols (some [])) (some ("   "))
      = Except.ok (("Enter a customer ID to look up."), none) ∧
    customer_lookup (fun _ => WireResp.ok custCols (some [])) (some ("7"))
      = Except.ok ((("No customer found with ID ") ++ toString (7 : Int) ++ (".")), none) :=
  ⟨((customer_lookup_blank_prompt_and_no_match
      (fun _ => WireResp.ok custCols (some []))).2.2.1 ("   ") (by decide)).1,
   (customer_lookup_blank_prompt_and_no_match
      (fun _ => WireResp.ok custCols (some []))).2.2.2 ("7") 7 custCols
      (by decide) (by decide) rfl⟩
